import Mathlib

/-!
Verification of the remote progress-reporting endpoint (`remote.py`).

The program runs two external validation steps, records the outcome in a
log file (`progress.log`), and serves the log's current content over TCP.
We embed the log-affecting behaviour of the script as pure Lean functions:

* a validation step's observable outcome is a `StepResult` (exit code,
  captured stdout, captured stderr);
* `run_tests` is modelled by the list of log operations it performs
  (`run_tests_trace`) together with the log content those operations
  produce from a given prior file content (`run_tests`);
* `handle_connection` is modelled as a function from the state of the log
  file (`none` when the file does not exist) to either an I/O error (the
  Python `open` raising) or the bytes sent to the client together with the
  file state after the handler ran;
* Python's `readlines`, `''.join` and the line structure of the file are
  modelled character by character (`readlinesAux`, `pyJoin`,
  `logicalLines`).
-/

/-- Outcome of invoking one external validation step with
`subprocess.run(..., capture_output=True, text=True)`: its exit code and
captured output streams. -/
structure StepResult where
  returncode : Int
  stdout : String
  stderr : String
deriving DecidableEq

/-- The message logged when step 1 fails (line 52 of `remote.py`):
`"ERROR 1: System requirements test failed. " + result.stdout + " " + result.stderr`. -/
def errmsg1 (r : StepResult) : String :=
  "ERROR 1: System requirements test failed. " ++ r.stdout ++ " " ++ r.stderr

/-- The message logged when step 2 fails (line 60 of `remote.py`):
`"ERROR 2: Test All GPU ResNet50 failed. " + result.stdout + " " + result.stderr`. -/
def errmsg2 (r : StepResult) : String :=
  "ERROR 2: Test All GPU ResNet50 failed. " ++ r.stdout ++ " " ++ r.stderr

/-- Observable events of the script's main thread: starting the listener
thread, truncating the log, invoking validation step `i`, appending a
message to the log via `log_message`, and joining the listener thread. -/
inductive Event where
  | startServerThread
  | resetLog
  | runStep (i : Nat)
  | append (line : String)
  | joinServer
deriving DecidableEq

/-- `log_message` (lines 36–38): append `message + '\n'` to the log file. -/
def log_message (log message : String) : String :=
  log ++ message ++ "\n"

/-- The sequence of events `run_tests` (lines 41–60) performs, given the
outcomes of the two steps: truncate the log, run step 1; on failure append
the step-1 error message and return, otherwise run step 2 and append
either `"DONE"` or the step-2 error message. -/
def run_tests_trace (r1 r2 : StepResult) : List Event :=
  Event.resetLog :: Event.runStep 1 ::
    (if r1.returncode = 0 then
      Event.runStep 2 ::
        (if r2.returncode = 0 then [Event.append "DONE"]
         else [Event.append (errmsg2 r2)])
     else [Event.append (errmsg1 r1)])

/-- Effect of one event on the log file's content: `resetLog` truncates
(open mode `'w'` writing the empty string), `append` performs
`log_message`, the other events do not touch the file. -/
def applyEvent (log : String) : Event → String
  | Event.resetLog => ""
  | Event.append line => log_message log line
  | _ => log

/-- The log file's content after `run_tests` runs on a file that
previously held `prior`. -/
def run_tests (prior : String) (r1 r2 : StepResult) : String :=
  (run_tests_trace r1 r2).foldl applyEvent prior

/-- The whole main-thread lifetime (lines 31–66): start the server thread,
run the tests once, block on `server_thread.join()`. -/
def mainTrace (r1 r2 : StepResult) : List Event :=
  Event.startServerThread :: (run_tests_trace r1 r2 ++ [Event.joinServer])

/-- Whether an event writes the log file. -/
def isLogWrite : Event → Bool
  | Event.resetLog => true
  | Event.append _ => true
  | _ => false

/-- Whether an event is the start of a sequencer run (the unconditional
truncation at the top of `run_tests`). -/
def isReset : Event → Bool
  | Event.resetLog => true
  | _ => false

/-- Python's `file.readlines()` on content `l`, with `cur` the (reversed)
characters of the line read so far: split after every `'\n'`, keeping the
newline in each line, and keep a final newline-less chunk if nonempty. -/
def readlinesAux (cur : List Char) : List Char → List String
  | [] => if cur = [] then [] else [String.mk cur.reverse]
  | c :: cs =>
      if c = '\n' then String.mk (cur.reverse ++ ['\n']) :: readlinesAux [] cs
      else readlinesAux (c :: cur) cs

/-- Python's `file.readlines()` applied to the full file content. -/
def pythonReadlines (s : String) : List String :=
  readlinesAux [] s.data

/-- Python's `''.join(lines)`. -/
def pyJoin : List String → String
  | [] => ""
  | s :: rest => s ++ pyJoin rest

/-- The logical lines of a file content: like `readlinesAux` but with the
terminating newline stripped from each line. -/
def logicalLinesAux (cur : List Char) : List Char → List String
  | [] => if cur = [] then [] else [String.mk cur.reverse]
  | c :: cs =>
      if c = '\n' then String.mk cur.reverse :: logicalLinesAux [] cs
      else logicalLinesAux (c :: cur) cs

/-- The logical lines of a file content. -/
def logicalLines (s : String) : List String :=
  logicalLinesAux [] s.data

/-- Whether the first list of characters is an initial segment of the
second. -/
def charsBeginWith : List Char → List Char → Bool
  | [], _ => true
  | _ :: _, [] => false
  | p :: ps, c :: cs => p == c && charsBeginWith ps cs

/-- A line is an error line when it starts with `"ERROR "`. -/
def isErrorLine (l : String) : Bool :=
  charsBeginWith "ERROR ".data l.data

/-- The completed-run log shape claimed by the spec: the content is either
exactly one error line or exactly the line `"DONE"` — a single logical
line that is an error line or the `DONE` marker. -/
def goodLog (c : String) : Bool :=
  match logicalLines c with
  | [l] => isErrorLine l || l == "DONE"
  | _ => false

/-- The error `open(LOG_FILE, 'r')` raises when the file does not exist. -/
inductive IOErr where
  | enoent
deriving DecidableEq

/-- What a connection handler did for its client: the bytes sent and
whether it reached `client_socket.close()`. -/
structure HandlerResult where
  sent : String
  closed : Bool
deriving DecidableEq

/-- `handle_connection` (lines 10–15), as a function of the log file's
state (`none`: the file does not exist). On a missing file, `open` raises
and the function exits before the `close` call, so no `HandlerResult` is
produced. Otherwise it reads all lines, sends their concatenation when
the list is nonempty, closes the socket, and leaves the file unchanged. -/
def handle_connection (fs : Option String) :
    Except IOErr (HandlerResult × Option String) :=
  match fs with
  | none => Except.error IOErr.enoent
  | some c =>
      let lines := pythonReadlines c
      Except.ok ({ sent := if lines = [] then "" else pyJoin lines,
                   closed := true }, some c)

/-- The bytes a client receives from a connection handler. A handler that
raised sent nothing. -/
def clientReceived (fs : Option String) : String :=
  match handle_connection fs with
  | Except.ok (r, _) => r.sent
  | Except.error _ => ""

/-- The log file's state after a connection handler ran on it (a handler
that raised in `open` also left the file untouched). -/
def fsAfterHandler (fs : Option String) : Option String :=
  match handle_connection fs with
  | Except.ok (_, fs2) => fs2
  | Except.error _ => fs

/-- The accept loop of `start_server` (lines 25–29): each accepted
connection is handed to a fresh handler thread; an exception in a handler
thread never reaches the loop, which simply continues with the next
connection. `fss` is the log file's state as seen by each successive
connection. -/
def start_server (fss : List (Option String)) : List (Except IOErr HandlerResult) :=
  fss.map (fun fs => (handle_connection fs).map Prod.fst)

/-! ### Basic string lemmas -/

theorem strData_append (s t : String) : (s ++ t).data = s.data ++ t.data := rfl

theorem strMk_append (a b : List Char) :
    String.mk a ++ String.mk b = String.mk (a ++ b) := rfl

theorem empty_append_str (s : String) : "" ++ s = s := by
  cases s with
  | mk d => rfl

theorem str_append_empty (s : String) : s ++ "" = s := by
  cases s with
  | mk d => show String.mk (d ++ []) = String.mk d
            rw [List.append_nil]

/-! ### The handler reconstructs the file content -/

theorem pyJoin_readlinesAux (l : List Char) :
    ∀ cur : List Char, pyJoin (readlinesAux cur l) = String.mk (cur.reverse ++ l) := by
  induction l with
  | nil =>
      intro cur
      by_cases h : cur = []
      · subst h; rfl
      · simp [readlinesAux, h, pyJoin, str_append_empty]
  | cons c cs ih =>
      intro cur
      by_cases h : c = '\n'
      · subst h
        simp only [readlinesAux, if_pos rfl, pyJoin, ih [], strMk_append]
        simp
      · simp only [readlinesAux, if_neg h, ih (c :: cur)]
        simp

theorem pyJoin_pythonReadlines (s : String) :
    pyJoin (pythonReadlines s) = s := by
  show pyJoin (readlinesAux [] s.data) = s
  rw [pyJoin_readlinesAux]
  rfl

theorem clientReceived_some (c : String) : clientReceived (some c) = c := by
  show (if pythonReadlines c = [] then "" else pyJoin (pythonReadlines c)) = c
  by_cases h : pythonReadlines c = []
  · rw [if_pos h]
    have := pyJoin_pythonReadlines c
    rw [h] at this
    exact this
  · rw [if_neg h, pyJoin_pythonReadlines]

/-! ### Logical lines of newline-free messages -/

theorem logicalLinesAux_nlFree (l : List Char) (h : '\n' ∉ l) :
    ∀ cur : List Char,
      logicalLinesAux cur (l ++ ['\n']) = [String.mk (cur.reverse ++ l)] := by
  induction l with
  | nil =>
      intro cur
      simp [logicalLinesAux]
  | cons c cs ih =>
      intro cur
      have hc : c ≠ '\n' := fun hc => h (hc ▸ List.mem_cons_self c cs)
      have hcs : '\n' ∉ cs := fun hm => h (List.mem_cons_of_mem c hm)
      rw [List.cons_append]
      show (if c = '\n' then String.mk cur.reverse :: logicalLinesAux [] (cs ++ ['\n'])
            else logicalLinesAux (c :: cur) (cs ++ ['\n'])) = _
      rw [if_neg hc, ih hcs (c :: cur)]
      simp

theorem logicalLines_single (s : String) (h : '\n' ∉ s.data) :
    logicalLines (s ++ "\n") = [s] := by
  show logicalLinesAux [] (s ++ "\n").data = [s]
  rw [strData_append]
  show logicalLinesAux [] (s.data ++ ['\n']) = [s]
  rw [logicalLinesAux_nlFree s.data h]
  rfl

/-! ### Error messages -/

theorem charsBeginWith_append (p a b : List Char) (h : charsBeginWith p a = true) :
    charsBeginWith p (a ++ b) = true := by
  induction p generalizing a with
  | nil => rfl
  | cons x xs ih =>
      cases a with
      | nil => exact absurd h (by simp [charsBeginWith])
      | cons y ys =>
          simp only [charsBeginWith, Bool.and_eq_true] at h
          simp only [List.cons_append, charsBeginWith, Bool.and_eq_true]
          exact ⟨h.1, ih ys h.2⟩

theorem isErrorLine_errmsg1 (r : StepResult) : isErrorLine (errmsg1 r) = true := by
  show charsBeginWith "ERROR ".data (errmsg1 r).data = true
  have : (errmsg1 r).data =
      "ERROR 1: System requirements test failed. ".data ++
        (r.stdout.data ++ " ".data ++ r.stderr.data) := by
    show (("ERROR 1: System requirements test failed. " ++ r.stdout ++ " ") ++ r.stderr).data = _
    rw [strData_append, strData_append, strData_append]
    simp [List.append_assoc]
  rw [this]
  exact charsBeginWith_append _ _ _ (by decide)

theorem isErrorLine_errmsg2 (r : StepResult) : isErrorLine (errmsg2 r) = true := by
  show charsBeginWith "ERROR ".data (errmsg2 r).data = true
  have : (errmsg2 r).data =
      "ERROR 2: Test All GPU ResNet50 failed. ".data ++
        (r.stdout.data ++ " ".data ++ r.stderr.data) := by
    show (("ERROR 2: Test All GPU ResNet50 failed. " ++ r.stdout ++ " ") ++ r.stderr).data = _
    rw [strData_append, strData_append, strData_append]
    simp [List.append_assoc]
  rw [this]
  exact charsBeginWith_append _ _ _ (by decide)

theorem errmsg1_ne_done (r : StepResult) : errmsg1 r ≠ "DONE" := by
  intro h
  have h1 := isErrorLine_errmsg1 r
  rw [h] at h1
  exact absurd h1 (by decide)

theorem errmsg2_ne_done (r : StepResult) : errmsg2 r ≠ "DONE" := by
  intro h
  have h1 := isErrorLine_errmsg2 r
  rw [h] at h1
  exact absurd h1 (by decide)

theorem errmsg1_nlFree (r : StepResult) (h1 : '\n' ∉ r.stdout.data)
    (h2 : '\n' ∉ r.stderr.data) : '\n' ∉ (errmsg1 r).data := by
  have : (errmsg1 r).data =
      "ERROR 1: System requirements test failed. ".data ++
        (r.stdout.data ++ " ".data ++ r.stderr.data) := by
    show (("ERROR 1: System requirements test failed. " ++ r.stdout ++ " ") ++ r.stderr).data = _
    rw [strData_append, strData_append, strData_append]
    simp [List.append_assoc]
  rw [this]
  intro hm
  rcases List.mem_append.1 hm with hfix | hrest
  · exact absurd hfix (by decide)
  · rcases List.mem_append.1 hrest with hout | hsp
    · rcases List.mem_append.1 hout with ho | hs
      · exact h1 ho
      · exact absurd hs (by decide)
    · exact h2 hsp

theorem errmsg2_nlFree (r : StepResult) (h1 : '\n' ∉ r.stdout.data)
    (h2 : '\n' ∉ r.stderr.data) : '\n' ∉ (errmsg2 r).data := by
  have : (errmsg2 r).data =
      "ERROR 2: Test All GPU ResNet50 failed. ".data ++
        (r.stdout.data ++ " ".data ++ r.stderr.data) := by
    show (("ERROR 2: Test All GPU ResNet50 failed. " ++ r.stdout ++ " ") ++ r.stderr).data = _
    rw [strData_append, strData_append, strData_append]
    simp [List.append_assoc]
  rw [this]
  intro hm
  rcases List.mem_append.1 hm with hfix | hrest
  · exact absurd hfix (by decide)
  · rcases List.mem_append.1 hrest with hout | hsp
    · rcases List.mem_append.1 hout with ho | hs
      · exact h1 ho
      · exact absurd hs (by decide)
    · exact h2 hsp

/-! ### Computing `run_tests` -/

theorem run_tests_trace_fail1 (r1 r2 : StepResult) (h : r1.returncode ≠ 0) :
    run_tests_trace r1 r2 =
      [Event.resetLog, Event.runStep 1, Event.append (errmsg1 r1)] := by
  show Event.resetLog :: Event.runStep 1 :: (if r1.returncode = 0 then _ else _) = _
  rw [if_neg h]

theorem run_tests_trace_fail2 (r1 r2 : StepResult) (h1 : r1.returncode = 0)
    (h2 : r2.returncode ≠ 0) :
    run_tests_trace r1 r2 =
      [Event.resetLog, Event.runStep 1, Event.runStep 2,
       Event.append (errmsg2 r2)] := by
  show Event.resetLog :: Event.runStep 1 :: (if r1.returncode = 0 then _ else _) = _
  rw [if_pos h1, if_neg h2]

theorem run_tests_trace_success (r1 r2 : StepResult) (h1 : r1.returncode = 0)
    (h2 : r2.returncode = 0) :
    run_tests_trace r1 r2 =
      [Event.resetLog, Event.runStep 1, Event.runStep 2, Event.append "DONE"] := by
  show Event.resetLog :: Event.runStep 1 :: (if r1.returncode = 0 then _ else _) = _
  rw [if_pos h1, if_pos h2]

theorem run_tests_fail1 (prior : String) (r1 r2 : StepResult)
    (h : r1.returncode ≠ 0) : run_tests prior r1 r2 = errmsg1 r1 ++ "\n" := by
  show (run_tests_trace r1 r2).foldl applyEvent prior = _
  rw [run_tests_trace_fail1 r1 r2 h]
  show log_message "" (errmsg1 r1) = errmsg1 r1 ++ "\n"
  show ("" ++ errmsg1 r1) ++ "\n" = errmsg1 r1 ++ "\n"
  rw [empty_append_str]

theorem run_tests_fail2 (prior : String) (r1 r2 : StepResult)
    (h1 : r1.returncode = 0) (h2 : r2.returncode ≠ 0) :
    run_tests prior r1 r2 = errmsg2 r2 ++ "\n" := by
  show (run_tests_trace r1 r2).foldl applyEvent prior = _
  rw [run_tests_trace_fail2 r1 r2 h1 h2]
  show ("" ++ errmsg2 r2) ++ "\n" = errmsg2 r2 ++ "\n"
  rw [empty_append_str]

theorem run_tests_success (prior : String) (r1 r2 : StepResult)
    (h1 : r1.returncode = 0) (h2 : r2.returncode = 0) :
    run_tests prior r1 r2 = "DONE\n" := by
  show (run_tests_trace r1 r2).foldl applyEvent prior = _
  rw [run_tests_trace_success r1 r2 h1 h2]
  rfl

/-- Helper: every run's trace performs exactly one log truncation. -/
theorem countReset_run_tests_trace (r1 r2 : StepResult) :
    (run_tests_trace r1 r2).countP isReset = 1 := by
  unfold run_tests_trace
  by_cases hc1 : r1.returncode = 0
  · rw [if_pos hc1]
    by_cases hc2 : r2.returncode = 0
    · rw [if_pos hc2]; simp [List.countP_cons, isReset]
    · rw [if_neg hc2]; simp [List.countP_cons, isReset]
  · rw [if_neg hc1]; simp [List.countP_cons, isReset]

/-- Claim C1 (counterexample): when a step's captured output itself
contains a newline, the claim fails — with step 1 failing with
`stderr = "\nDONE"` the log contains an error line AND the line `"DONE"`,
so it is neither exactly one error line nor exactly the line `"DONE"`. -/
theorem completed_run_log_shape_counterexample :
    goodLog (run_tests "" ⟨1, "", "\nDONE"⟩ ⟨0, "", ""⟩) = false
    ∧ logicalLines (run_tests "" ⟨1, "", "\nDONE"⟩ ⟨0, "", ""⟩)
        = ["ERROR 1: System requirements test failed.  ", "DONE"]
    ∧ isErrorLine "ERROR 1: System requirements test failed.  " = true
    ∧ isErrorLine "DONE" = false :=
  ⟨by decide, by decide, by decide, by decide⟩

/-- Claim C1 (amended): for every completed run whose two steps produced
newline-free stdout and stderr, the log contains either exactly one error
line or exactly the line `"DONE"` — never both and never neither —
regardless of the exit codes. -/
theorem completed_run_log_shape (prior : String) (r1 r2 : StepResult)
    (h1 : '\n' ∉ r1.stdout.data) (h2 : '\n' ∉ r1.stderr.data)
    (h3 : '\n' ∉ r2.stdout.data) (h4 : '\n' ∉ r2.stderr.data) :
    goodLog (run_tests prior r1 r2) = true := by
  by_cases hc1 : r1.returncode = 0
  · by_cases hc2 : r2.returncode = 0
    · rw [run_tests_success prior r1 r2 hc1 hc2]; decide
    · rw [run_tests_fail2 prior r1 r2 hc1 hc2]
      unfold goodLog
      rw [logicalLines_single _ (errmsg2_nlFree r2 h3 h4)]
      simp [isErrorLine_errmsg2]
  · rw [run_tests_fail1 prior r1 r2 hc1]
    unfold goodLog
    rw [logicalLines_single _ (errmsg1_nlFree r1 h1 h2)]
    simp [isErrorLine_errmsg1]

/-- Claim C1 (witness): the amended claim at a concrete failing run over a
dirty prior log. -/
theorem completed_run_log_shape_witness :
    goodLog (run_tests "old content\n" ⟨1, "bad env", ""⟩ ⟨0, "", ""⟩) = true :=
  completed_run_log_shape "old content\n" ⟨1, "bad env", ""⟩ ⟨0, "", ""⟩
    (by decide) (by decide) (by decide) (by decide)

/-- Claim C2: if step 1 exits non-zero, step 2 is never invoked, `"DONE"`
is never appended, and the run stops right after appending the step-1
error line, which is the whole resulting log. -/
theorem step1_short_circuit (prior : String) (r1 r2 : StepResult)
    (h : r1.returncode ≠ 0) :
    run_tests_trace r1 r2
        = [Event.resetLog, Event.runStep 1, Event.append (errmsg1 r1)]
    ∧ Event.runStep 2 ∉ run_tests_trace r1 r2
    ∧ Event.append "DONE" ∉ run_tests_trace r1 r2
    ∧ run_tests prior r1 r2 = errmsg1 r1 ++ "\n" := by
  have ht := run_tests_trace_fail1 r1 r2 h
  refine ⟨ht, ?_, ?_, run_tests_fail1 prior r1 r2 h⟩
  · rw [ht]; simp
  · rw [ht]
    have hne : "DONE" ≠ errmsg1 r1 := (errmsg1_ne_done r1).symm
    simp [hne]

/-- Claim C2 (witness): the short circuit at a concrete failing step 1. -/
theorem step1_short_circuit_witness :
    run_tests_trace ⟨1, "bad env", ""⟩ ⟨0, "", ""⟩
        = [Event.resetLog, Event.runStep 1,
           Event.append (errmsg1 ⟨1, "bad env", ""⟩)]
    ∧ Event.runStep 2 ∉ run_tests_trace ⟨1, "bad env", ""⟩ ⟨0, "", ""⟩
    ∧ Event.append "DONE" ∉ run_tests_trace ⟨1, "bad env", ""⟩ ⟨0, "", ""⟩
    ∧ run_tests "old\n" ⟨1, "bad env", ""⟩ ⟨0, "", ""⟩
        = errmsg1 ⟨1, "bad env", ""⟩ ++ "\n" :=
  step1_short_circuit "old\n" ⟨1, "bad env", ""⟩ ⟨0, "", ""⟩ (by decide)

/-- Claim C3: if both steps exit 0, the log content is exactly `"DONE\n"`
and a client connecting afterwards receives exactly `"DONE\n"`. -/
theorem all_pass_done (prior : String) (r1 r2 : StepResult)
    (h1 : r1.returncode = 0) (h2 : r2.returncode = 0) :
    run_tests prior r1 r2 = "DONE\n"
    ∧ clientReceived (some (run_tests prior r1 r2)) = "DONE\n" := by
  have hr := run_tests_success prior r1 r2 h1 h2
  exact ⟨hr, by rw [hr, clientReceived_some]⟩

/-- Claim C3 (witness): a concrete all-pass run over a dirty prior log. -/
theorem all_pass_done_witness :
    run_tests "junk\n" ⟨0, "out", "err"⟩ ⟨0, "", ""⟩ = "DONE\n"
    ∧ clientReceived (some (run_tests "junk\n" ⟨0, "out", "err"⟩ ⟨0, "", ""⟩))
        = "DONE\n" :=
  all_pass_done "junk\n" ⟨0, "out", "err"⟩ ⟨0, "", ""⟩ rfl rfl

/-- Claim C4: if step 1 exits 1 with stdout `"bad env"` and empty stderr,
the log is exactly `"ERROR 1: System requirements test failed. bad env \n"`,
step 2 never runs, and a client connecting afterwards receives exactly
that line. -/
theorem scenario_bad_env (prior : String) (r2 : StepResult) :
    run_tests prior ⟨1, "bad env", ""⟩ r2
        = "ERROR 1: System requirements test failed. bad env \n"
    ∧ run_tests_trace ⟨1, "bad env", ""⟩ r2
        = [Event.resetLog, Event.runStep 1,
           Event.append "ERROR 1: System requirements test failed. bad env "]
    ∧ Event.runStep 2 ∉ run_tests_trace ⟨1, "bad env", ""⟩ r2
    ∧ clientReceived (some (run_tests prior ⟨1, "bad env", ""⟩ r2))
        = "ERROR 1: System requirements test failed. bad env \n" := by
  have hne : (StepResult.mk 1 "bad env" "").returncode ≠ 0 := by decide
  have hmsg : errmsg1 ⟨1, "bad env", ""⟩
      = "ERROR 1: System requirements test failed. bad env " := by decide
  have ht := run_tests_trace_fail1 ⟨1, "bad env", ""⟩ r2 hne
  rw [hmsg] at ht
  have hr : run_tests prior ⟨1, "bad env", ""⟩ r2
      = "ERROR 1: System requirements test failed. bad env \n" := by
    rw [run_tests_fail1 prior ⟨1, "bad env", ""⟩ r2 hne, hmsg]
    decide
  refine ⟨hr, ht, ?_, ?_⟩
  · rw [ht]; simp
  · rw [hr, clientReceived_some]

/-- Claim C5: if step 1 exits 0 and step 2 exits 1 with empty stdout and
stderr `"oom"`, the log is exactly
`"ERROR 2: Test All GPU ResNet50 failed.  oom\n"` (two spaces). -/
theorem scenario_oom (prior : String) (r1 : StepResult)
    (h1 : r1.returncode = 0) :
    run_tests prior r1 ⟨1, "", "oom"⟩
        = "ERROR 2: Test All GPU ResNet50 failed.  oom\n" := by
  have h2 : (StepResult.mk 1 "" "oom").returncode ≠ 0 := by decide
  rw [run_tests_fail2 prior r1 ⟨1, "", "oom"⟩ h1 h2]
  decide

/-- Claim C5 (witness): the scenario at a concrete passing step 1. -/
theorem scenario_oom_witness :
    run_tests "x" ⟨0, "a", "b"⟩ ⟨1, "", "oom"⟩
        = "ERROR 2: Test All GPU ResNet50 failed.  oom\n" :=
  scenario_oom "x" ⟨0, "a", "b"⟩ rfl

/-- Claim C6: the first action of every run is the unconditional
truncation of the log, and the resulting log never depends on the log's
prior content. -/
theorem reset_log_first (prior : String) (r1 r2 : StepResult) :
    (run_tests_trace r1 r2).head? = some Event.resetLog
    ∧ run_tests prior r1 r2 = run_tests "" r1 r2 :=
  ⟨rfl, rfl⟩

/-- Claim C7: a client connecting on an empty log receives zero bytes; a
client connecting after a failed run receives exactly the error line; a
client connecting after a successful run receives `"DONE\n"` and sees no
error line. -/
theorem client_views (prior : String) (r1 r2 : StepResult) :
    clientReceived (some "") = ""
    ∧ (r1.returncode ≠ 0 →
        clientReceived (some (run_tests prior r1 r2)) = errmsg1 r1 ++ "\n")
    ∧ (r1.returncode = 0 → r2.returncode ≠ 0 →
        clientReceived (some (run_tests prior r1 r2)) = errmsg2 r2 ++ "\n")
    ∧ (r1.returncode = 0 → r2.returncode = 0 →
        clientReceived (some (run_tests prior r1 r2)) = "DONE\n"
        ∧ ∀ l ∈ logicalLines (run_tests prior r1 r2), isErrorLine l = false) := by
  refine ⟨rfl, ?_, ?_, ?_⟩
  · intro h; rw [run_tests_fail1 prior r1 r2 h, clientReceived_some]
  · intro h1 h2; rw [run_tests_fail2 prior r1 r2 h1 h2, clientReceived_some]
  · intro h1 h2
    rw [run_tests_success prior r1 r2 h1 h2]
    exact ⟨by rw [clientReceived_some], by decide⟩

/-- Claim C9: every log write of the main thread's lifetime lies inside
the single `run_tests` segment, that segment's truncation happens exactly
once, and a connection handler never changes the log file. -/
theorem log_frozen_after_run (r1 r2 : StepResult) :
    (mainTrace r1 r2).filter isLogWrite
        = (run_tests_trace r1 r2).filter isLogWrite
    ∧ (mainTrace r1 r2).countP isReset = 1
    ∧ ∀ fs : Option String, fsAfterHandler fs = fs := by
  refine ⟨?_, ?_, ?_⟩
  · simp [mainTrace, List.filter_cons, List.filter_append, isLogWrite]
  · have h := countReset_run_tests_trace r1 r2
    simp [mainTrace, List.countP_cons, List.countP_append, isReset, h]
  · intro fs; cases fs <;> rfl

/-- Claim C10: on a missing log file the handler's `open` raises, so the
handler produces no result (in particular it never reaches the
`close` call), while the accept loop serves the remaining connections
unaffected. -/
theorem missing_log_file_handler (fss : List (Option String)) :
    handle_connection none = Except.error IOErr.enoent
    ∧ (∀ (r : HandlerResult) (fs2 : Option String),
        handle_connection none ≠ Except.ok (r, fs2))
    ∧ start_server (none :: fss) = Except.error IOErr.enoent :: start_server fss :=
  ⟨rfl, fun _ _ h => Except.noConfusion h, rfl⟩
